import Mathlib

/-!
Verification of the browser-rendering worker (src/puppeteer-worker.js).

The development shallow-embeds the two request handlers that the claims
concern: handleScreenshot (the capture pipeline: validate, launch, configure,
navigate, capture, persist, close, respond) and handleImage (the artifact
server: read the two cache records and serve the decoded payload).

External collaborators (the puppeteer browser binding, the WHATWG URL
parser, the KV store network, the clock, the id generator) are modelled as
an oracle record `Oracle` giving the outcome of each awaited external call.
JavaScript truthiness of optional fields is modelled explicitly (`jsOrNat`,
`jsOrStr`, `truthyB`). The KV store is a list of key/entry pairs with
per-entry absolute expiry, read through `kvGet` at an explicit current time.
A `Trace` records the externally observable lifecycle events of one request:
whether the browser was launched, whether a page was created, whether
close() was invoked, the viewport that was set, the screenshot calls made,
and whether the 15-second launch timer callback threw (uncaught).
-/

/-- SCREENSHOT_EXPIRATION from the source: 60 * 60 seconds. -/
def SCREENSHOT_EXPIRATION : Nat := 60 * 60

/-- JavaScript `v || d` for an optional numeric field: undefined and 0 are
falsy, so both fall back to the default. -/
def jsOrNat (v : Option Nat) (d : Nat) : Nat :=
  match v with
  | none => d
  | some n => if n = 0 then d else n

/-- JavaScript `v || d` for an optional string field: undefined and the
empty string are falsy. -/
def jsOrStr (v : Option String) (d : String) : String :=
  match v with
  | none => d
  | some s => if s = "" then d else s

/-- JavaScript truthiness of an optional boolean field. -/
def truthyB (v : Option Bool) : Bool :=
  match v with
  | none => false
  | some b => b

/-- The parsed JSON body of a POST /screenshot request (all fields optional
in JavaScript). -/
structure ScreenshotBody where
  url : Option String := none
  width : Option Nat := none
  height : Option Nat := none
  fullPage : Option Bool := none
  forceFullPage : Option Bool := none
  waitUntil : Option String := none
  timeout : Option Nat := none
  includeResources : Option Bool := none
deriving DecidableEq

/-- The metadata record the pipeline stores under `{id}:meta`
(JSON.stringify of the object built at lines 296-304 of the source). -/
structure Metadata where
  contentType : String
  width : Nat
  height : Nat
  fullPage : Bool
  format : String
  timestamp : Nat
  originalUrl : String
deriving DecidableEq

/-- A value held by the KV store: either the JSON metadata record (read
back with type json) or the base64 payload text (read back with type
text). -/
inductive KVVal where
  | meta (m : Metadata)
  | data (s : String)
deriving DecidableEq

/-- One stored KV record with its absolute expiry time (write time plus
expirationTtl). -/
structure KVEntry where
  val : KVVal
  expiresAt : Nat
deriving DecidableEq

/-- The SCREENSHOTS KV namespace, newest write first. -/
abbrev KV := List (String × KVEntry)

/-- KV put with expirationTtl: the new record shadows any older record
under the same key. -/
def kvPut (kv : KV) (key : String) (v : KVVal) (now ttl : Nat) : KV :=
  (key, { val := v, expiresAt := now + ttl }) :: kv

/-- KV get at the current time: the newest record under the key, provided
its expiry has not elapsed. -/
def kvGet : KV → String → Nat → Option KVVal
  | [], _, _ => none
  | (k, e) :: rest, key, now =>
    if k = key then (if now < e.expiresAt then some e.val else none)
    else kvGet rest key now

/-- A structured model of the JSON/text/binary response bodies the worker
builds. -/
inductive Body where
  | errJson (error : String)
  | errFull (error : String) (ty : String)
  | okJson (url : String) (width height : Nat) (format : String)
           (fullPage : Bool) (expiresIn : String) (id : String)
  | textBody (s : String)
  | bytes (bs : List Nat)
deriving DecidableEq

/-- An HTTP response: status, content type, optional Cache-Control header,
body. -/
structure Response where
  status : Nat
  contentType : String
  cacheControl : Option String := none
  body : Body
deriving DecidableEq

/-- The parameters of one page.screenshot call (lines 282-287 of the
source). -/
structure ShotParams where
  fullPage : Bool
  format : String
  quality : Nat
  encoding : String
deriving DecidableEq

/-- Externally observable lifecycle events of one screenshot request. -/
structure Trace where
  launched : Bool := false
  closeCalled : Bool := false
  pageCreated : Bool := false
  viewportSet : Option (Nat × Nat) := none
  interceptionSet : Bool := false
  navigated : Bool := false
  gotoOpts : Option (String × Nat) := none
  shots : List ShotParams := []
  timerThrew : Bool := false
deriving DecidableEq

/-- Outcomes of the external calls one screenshot request awaits: the URL
parser, the browser binding (launch result and how long launch takes, in
milliseconds), the page operations, the two KV writes, close, the fresh
id, the clock and the serving origin. -/
structure Oracle where
  urlParses : String → Bool
  launch : Except String Unit
  launchMillis : Nat
  newPage : Except String Unit
  setViewport : Except String Unit
  setInterception : Except String Unit
  goto : Except String Unit
  screenshot : Except String String
  putMeta : Except String Unit
  putData : Except String Unit
  close : Except String Unit
  freshId : String
  now : Nat
  origin : String

/-- Presence of the two required bindings on the worker environment. -/
structure EnvCfg where
  browser : Bool
  SCREENSHOTS : Bool
deriving DecidableEq

/-- A 400/500 JSON error response with an error field only. -/
def errResp (status : Nat) (e : String) : Response :=
  { status := status, contentType := "application/json", body := Body.errJson e }

/-- The catch-block response of handleScreenshot: 500 with error, details
and type screenshot_error (the stack detail is a runtime artifact and is
not modelled). -/
def catchResp (e : String) : Response :=
  { status := 500, contentType := "application/json",
    body := Body.errFull e "screenshot_error" }

/-- The fullPage value actually passed to page.screenshot (line 279):
`body.fullPage === true && !body.forceFullPage ? false : body.fullPage || false`. -/
def fullPageUsed (fullPage forceFullPage : Option Bool) : Bool :=
  if truthyB fullPage && ! truthyB forceFullPage then false else truthyB fullPage

/-- The interception handler installed at lines 260-267: abort when the
resource type is in the fixed reject list and the caller did not set
includeResources; continue otherwise. Returns true when the sub-request is
aborted. -/
def screenshotAbort (includeResources : Option Bool) (resourceType : String) : Bool :=
  (["image", "font", "media"].contains resourceType) && ! truthyB includeResources

/-- The finally block followed by the catch block, on an error raised
inside the inner try: close() is invoked; if close succeeds the original
error reaches the catch (browser already null, no second close); if close
itself fails, that failure supersedes the original error and the catch
makes a second, error-swallowed close attempt. Either way close() was
called and a 500 screenshot_error response is returned. -/
def closeAndCatch (ext : Oracle) (e : String) (t : Trace) (kv : KV) : Response × Trace × KV :=
  let t1 := { t with closeCalled := true }
  match ext.close with
  | Except.ok _ => (catchResp e, t1, kv)
  | Except.error ce => (catchResp ce, t1, kv)

/-- The finally block on the success path: close() is invoked before the
success response is returned; a close failure turns the result into the
catch response. -/
def closeAndReturn (ext : Oracle) (resp : Response) (t : Trace) (kv : KV) : Response × Trace × KV :=
  let t1 := { t with closeCalled := true }
  match ext.close with
  | Except.ok _ => (resp, t1, kv)
  | Except.error ce => (catchResp ce, t1, kv)

/-- handleScreenshot (lines 186-364 of the source), as a function of the
oracle, the environment, the current KV contents and the parsed body.
Returns the response, the lifecycle trace and the final KV contents.

The launch deadline (lines 231-238) arms a 15000 ms timer whose callback
throws if the browser variable is still null when it fires; that throw
happens inside the timer callback, outside the handler's try/catch, so it
never alters the handler's control flow. The embedding records it as
`timerThrew`: the timer fires whenever clearTimeout was not reached within
15000 ms, i.e. when launch itself failed (clearTimeout is never executed)
or when launch resolved only after 15000 ms. -/
def handleScreenshot (ext : Oracle) (env : EnvCfg) (kv0 : KV) (body : ScreenshotBody) :
    Response × Trace × KV :=
  let t0 : Trace := {}
  match body.url with
  | none => (errResp 400 ("URL is required"), t0, kv0)
  | some u =>
    if u = "" then (errResp 400 ("URL is required"), t0, kv0)
    else if ! ext.urlParses u then (errResp 400 ("Invalid URL: " ++ u), t0, kv0)
    else if ! env.browser then (errResp 500 ("Browser binding is not available"), t0, kv0)
    else if ! env.SCREENSHOTS then
      (errResp 500 ("SCREENSHOTS KV binding is not available"), t0, kv0)
    else
      match ext.launch with
      | Except.error e =>
        (catchResp e, { t0 with timerThrew := true }, kv0)
      | Except.ok _ =>
        let t1 := { t0 with launched := true, timerThrew := decide (15000 < ext.launchMillis) }
        match ext.newPage with
        | Except.error e => closeAndCatch ext e t1 kv0
        | Except.ok _ =>
          let t2 := { t1 with pageCreated := true }
          let width := min (jsOrNat body.width 1280) 1600
          let height := min (jsOrNat body.height 800) 1200
          match ext.setViewport with
          | Except.error e => closeAndCatch ext e t2 kv0
          | Except.ok _ =>
            let t3 := { t2 with viewportSet := some (width, height) }
            match ext.setInterception with
            | Except.error e => closeAndCatch ext e t3 kv0
            | Except.ok _ =>
              let t4 := { t3 with interceptionSet := true }
              let timeout := min (jsOrNat body.timeout 30000) 60000
              match ext.goto with
              | Except.error e => closeAndCatch ext e t4 kv0
              | Except.ok _ =>
                let t5 := { t4 with navigated := true,
                                    gotoOpts := some (jsOrStr body.waitUntil ("networkidle2"), timeout) }
                let fullPage := fullPageUsed body.fullPage body.forceFullPage
                match ext.screenshot with
                | Except.error e => closeAndCatch ext e t5 kv0
                | Except.ok shot =>
                  let t6 := { t5 with shots :=
                    [{ fullPage := fullPage, format := "jpeg", quality := 80,
                       encoding := "base64" }] }
                  let id := ext.freshId
                  let md : Metadata :=
                    { contentType := "image/jpeg", width := width, height := height,
                      fullPage := fullPage, format := "jpeg", timestamp := ext.now,
                      originalUrl := u }
                  let kv1 := match ext.putMeta with
                    | Except.ok _ =>
                        kvPut kv0 (id ++ ":meta") (KVVal.meta md) ext.now SCREENSHOT_EXPIRATION
                    | Except.error _ => kv0
                  let kv2 := match ext.putData with
                    | Except.ok _ =>
                        kvPut kv1 (id ++ ":data") (KVVal.data shot) ext.now SCREENSHOT_EXPIRATION
                    | Except.error _ => kv1
                  match ext.putMeta with
                  | Except.error e => closeAndCatch ext e t6 kv2
                  | Except.ok _ =>
                    match ext.putData with
                    | Except.error e => closeAndCatch ext e t6 kv2
                    | Except.ok _ =>
                      let resp : Response :=
                        { status := 200, contentType := "application/json",
                          body := Body.okJson (ext.origin ++ "/image/" ++ id) width height
                            ("jpeg") fullPage (toString SCREENSHOT_EXPIRATION ++ " seconds") id }
                      closeAndReturn ext resp t6 kv2

/-- The value of one base64 alphabet character. -/
def b64Index (c : Char) : Option Nat :=
  if 65 ≤ c.toNat ∧ c.toNat ≤ 90 then some (c.toNat - 65)
  else if 97 ≤ c.toNat ∧ c.toNat ≤ 122 then some (c.toNat - 97 + 26)
  else if 48 ≤ c.toNat ∧ c.toNat ≤ 57 then some (c.toNat - 48 + 52)
  else if c = '+' then some 62
  else if c = '/' then some 63
  else none

/-- Decode one base64 quantum of four characters, the last two possibly
padding, into one to three bytes. -/
def b64Group (a b c d : Char) : Option (List Nat) :=
  match b64Index a, b64Index b with
  | some va, some vb =>
    let byte1 := va * 4 + vb / 16
    if c = '=' then
      if d = '=' then some [byte1] else none
    else
      match b64Index c with
      | some vc =>
        let byte2 := (vb % 16) * 16 + vc / 4
        if d = '=' then some [byte1, byte2]
        else
          match b64Index d with
          | some vd => some [byte1, byte2, (vc % 4) * 64 + vd]
          | none => none
      | none => none
  | _, _ => none

/-- Decode a base64 character list four characters at a time; padding is
legal only in the final quantum; any other shape is an error, as with the
platform atob. -/
def atobList : List Char → Option (List Nat)
  | [] => some []
  | a :: b :: c :: d :: rest =>
    if c = '=' ∨ d = '=' then
      if rest = [] then b64Group a b c d else none
    else
      match b64Group a b c d, atobList rest with
      | some g, some gs => some (g ++ gs)
      | _, _ => none
  | _ => none

/-- The platform atob followed by the charCodeAt loop of lines 160-164:
the byte list decoded from base64-safe text, or an error for malformed
input. -/
def atob (s : String) : Option (List Nat) := atobList s.data

/-- handleImage (lines 129-181 of the source): read the metadata record
(type json) and the payload record (type text) for the id, 404 with a
plain-text body when either is missing, otherwise 200 with the decoded
bytes, the stored content type and the fixed Cache-Control header. A
stored value of the wrong shape for its key would make the JSON parse or
the decode throw and is routed to the catch response; the pipeline never
writes such a value. -/
def handleImage (kv : KV) (id : String) (now : Nat) : Response :=
  match kvGet kv (id ++ ":meta") now with
  | some (KVVal.meta md) =>
    match kvGet kv (id ++ ":data") now with
    | some (KVVal.data base64Data) =>
      if base64Data = "" then
        { status := 404, contentType := "text/plain", body := Body.textBody ("Image data not found") }
      else
        match atob base64Data with
        | some bs =>
          { status := 200, contentType := md.contentType,
            cacheControl := some ("public, max-age=3600"), body := Body.bytes bs }
        | none =>
          { status := 500, contentType := "text/plain",
            body := Body.textBody ("Error serving image: invalid payload") }
    | _ =>
      { status := 404, contentType := "text/plain", body := Body.textBody ("Image data not found") }
  | some (KVVal.data _) =>
    { status := 500, contentType := "text/plain",
      body := Body.textBody ("Error serving image: invalid metadata") }
  | none =>
    { status := 404, contentType := "text/plain", body := Body.textBody ("Image not found") }

/-- The metadata record built on the success path (lines 296-304), as a
function of the oracle and the request. -/
def successMeta (ext : Oracle) (body : ScreenshotBody) (u : String) : Metadata :=
  { contentType := "image/jpeg", width := min (jsOrNat body.width 1280) 1600,
    height := min (jsOrNat body.height 800) 1200,
    fullPage := fullPageUsed body.fullPage body.forceFullPage,
    format := "jpeg", timestamp := ext.now, originalUrl := u }

/-- The lifecycle trace of a fully successful screenshot request. -/
def successTrace (ext : Oracle) (body : ScreenshotBody) : Trace :=
  { launched := true, closeCalled := true, pageCreated := true,
    viewportSet := some (min (jsOrNat body.width 1280) 1600, min (jsOrNat body.height 800) 1200),
    interceptionSet := true, navigated := true,
    gotoOpts := some (jsOrStr body.waitUntil ("networkidle2"), min (jsOrNat body.timeout 30000) 60000),
    shots := [{ fullPage := fullPageUsed body.fullPage body.forceFullPage, format := "jpeg",
                quality := 80, encoding := "base64" }],
    timerThrew := decide (15000 < ext.launchMillis) }

/-- The success response of handleScreenshot (lines 324-334). -/
def successResp (ext : Oracle) (body : ScreenshotBody) : Response :=
  { status := 200, contentType := "application/json",
    body := Body.okJson (ext.origin ++ "/image/" ++ ext.freshId)
      (min (jsOrNat body.width 1280) 1600) (min (jsOrNat body.height 800) 1200)
      ("jpeg") (fullPageUsed body.fullPage body.forceFullPage)
      (toString SCREENSHOT_EXPIRATION ++ " seconds") ext.freshId }

/-- A fixture oracle on which every external call succeeds. -/
def extOK : Oracle :=
  { urlParses := fun _ => true, launch := Except.ok (), launchMillis := 100,
    newPage := Except.ok (), setViewport := Except.ok (), setInterception := Except.ok (),
    goto := Except.ok (), screenshot := Except.ok "QUJD", putMeta := Except.ok (),
    putData := Except.ok (), close := Except.ok (), freshId := "abc123", now := 0,
    origin := "https://w.example" }

/-- A fixture environment with both bindings configured. -/
def envOK : EnvCfg := { browser := true, SCREENSHOTS := true }

/-- A minimal valid capture request. -/
def bodySimple : ScreenshotBody := { url := some "https://example.com" }

/-- A capture request asking for a full-page screenshot without the
force flag. -/
def bodyFullPage : ScreenshotBody :=
  { url := some "https://example.com", fullPage := some true }

/-- A capture request with oversized viewport dimensions. -/
def bodyOversized : ScreenshotBody :=
  { url := some "https://example.com", width := some 2000, height := some 2000,
    fullPage := some true }

/-- An oracle whose browser launch only resolves after 20 seconds, past
the 15-second launch deadline, and then succeeds. -/
def extSlowLaunch : Oracle := { extOK with launchMillis := 20000 }

/-- An oracle whose navigation rejects with a puppeteer timeout error. -/
def extNavTimeout : Oracle :=
  { extOK with goto := Except.error ("Navigation timeout of 30000 ms exceeded") }

/-- A capture request setting both the full-page flag and the force flag. -/
def bodyForceFull : ScreenshotBody :=
  { url := some "https://example.com", fullPage := some true, forceFullPage := some true }

/-- A capture request with the width omitted and the height supplied as
zero. -/
def bodyDefaults : ScreenshotBody :=
  { url := some "https://example.com", height := some 0 }

/-- A fixture metadata record as written by a capture at time 0. -/
def mdFix : Metadata :=
  { contentType := "image/jpeg", width := 1280, height := 800, fullPage := false,
    format := "jpeg", timestamp := 0, originalUrl := "https://example.com" }

/-- A fixture cache holding both records of artifact a, written at time 0
with the one-hour TTL. -/
def kvFix : KV :=
  kvPut (kvPut [] ("a:meta") (KVVal.meta mdFix) 0 SCREENSHOT_EXPIRATION)
    ("a:data") (KVVal.data ("QUJD")) 0 SCREENSHOT_EXPIRATION

/- ------------------------------------------------------------------ -/
/- Helper lemmas shared by the claim theorems.                         -/
/- ------------------------------------------------------------------ -/

theorem append_tail_ne (s a b : String) (h : a ≠ b) : s ++ a ≠ s ++ b := by
  intro he
  apply h
  have hd := congrArg String.data he
  simp [String.data_append] at hd
  exact String.ext hd

theorem kvGet_put_same (kv : KV) (k : String) (v : KVVal) (now ttl t : Nat)
    (h : t < now + ttl) : kvGet (kvPut kv k v now ttl) k t = some v := by
  simp [kvGet, kvPut, h]

theorem kvGet_put_other (kv : KV) (k k2 : String) (v : KVVal) (now ttl t : Nat)
    (h : k ≠ k2) : kvGet (kvPut kv k v now ttl) k2 t = kvGet kv k2 t := by
  simp [kvGet, kvPut, h]

theorem closeAndCatch_closeCalled (ext : Oracle) (e : String) (t : Trace) (kv : KV) :
    (closeAndCatch ext e t kv).2.1.closeCalled = true := by
  unfold closeAndCatch
  cases ext.close <;> rfl

theorem closeAndReturn_closeCalled (ext : Oracle) (resp : Response) (t : Trace) (kv : KV) :
    (closeAndReturn ext resp t kv).2.1.closeCalled = true := by
  unfold closeAndReturn
  cases ext.close <;> rfl

theorem fullPageUsed_eq : ∀ fp ff : Option Bool,
    fullPageUsed fp ff = (truthyB fp && truthyB ff) := by
  decide

/-- Full characterization of a screenshot request on which validation
passes and every external call succeeds: the success response is returned,
the trace records the whole lifecycle with a final close, and the cache
gains exactly the two records of the fresh artifact. -/
theorem handleScreenshot_success
    (ext : Oracle) (env : EnvCfg) (kv0 : KV) (body : ScreenshotBody) (u s : String)
    (hurl : body.url = some u) (hu : u ≠ "")
    (hp : ext.urlParses u = true) (hb : env.browser = true) (hk : env.SCREENSHOTS = true)
    (hl : ext.launch = Except.ok ()) (hnp : ext.newPage = Except.ok ())
    (hv : ext.setViewport = Except.ok ()) (hi : ext.setInterception = Except.ok ())
    (hg : ext.goto = Except.ok ()) (hs : ext.screenshot = Except.ok s)
    (hm : ext.putMeta = Except.ok ()) (hd : ext.putData = Except.ok ())
    (hc : ext.close = Except.ok ()) :
    handleScreenshot ext env kv0 body =
      (successResp ext body, successTrace ext body,
       kvPut (kvPut kv0 (ext.freshId ++ ":meta") (KVVal.meta (successMeta ext body u))
           ext.now SCREENSHOT_EXPIRATION)
         (ext.freshId ++ ":data") (KVVal.data s) ext.now SCREENSHOT_EXPIRATION) := by
  unfold handleScreenshot closeAndReturn
  rw [hurl]
  simp [hu, hp, hb, hk, hl, hnp, hv, hi, hg, hs, hm, hd, hc,
    successResp, successTrace, successMeta]

/- ------------------------------------------------------------------ -/
/- Claim theorems.                                                     -/
/- ------------------------------------------------------------------ -/

/-- Claim C1: for every screenshot capture request in which the browser
launch succeeds, close() is invoked on the browser handle before the
request completes, on every exit path: successful capture, navigation or
capture failure (a navigation deadline overrun rejects the goto call and
takes the same path), cache write failure, and any other exception raised
between launch and response. -/
theorem screenshot_browser_closed_on_every_exit_path
    (ext : Oracle) (env : EnvCfg) (kv0 : KV) (body : ScreenshotBody) :
    (handleScreenshot ext env kv0 body).2.1.launched = true →
    (handleScreenshot ext env kv0 body).2.1.closeCalled = true := by
  unfold handleScreenshot
  repeat' split
  all_goals simp [closeAndCatch_closeCalled, closeAndReturn_closeCalled]

/-- Witness for C1 at a run whose navigation exceeds its deadline. -/
theorem screenshot_browser_closed_on_every_exit_path_witness :
    (handleScreenshot extNavTimeout envOK [] bodySimple).2.1.launched = true ∧
    (handleScreenshot extNavTimeout envOK [] bodySimple).2.1.closeCalled = true :=
  ⟨by decide, screenshot_browser_closed_on_every_exit_path extNavTimeout envOK [] bodySimple (by decide)⟩

/-- Claim C3: a capture request with a missing url field is answered 400
with the error URL is required, and one whose url does not parse is
answered 400 with an Invalid URL error; in both cases the trace is the
initial one (no launch, no page, no navigation) and the cache is
untouched. An empty-string url is falsy in JavaScript and takes the
missing-url branch. -/
theorem screenshot_invalid_url_rejected_without_launch
    (ext : Oracle) (env : EnvCfg) (kv0 : KV) (body : ScreenshotBody) :
    (body.url = none →
      handleScreenshot ext env kv0 body = (errResp 400 ("URL is required"), {}, kv0)) ∧
    (∀ u, body.url = some u → u ≠ "" → ext.urlParses u = false →
      handleScreenshot ext env kv0 body = (errResp 400 ("Invalid URL: " ++ u), {}, kv0)) ∧
    (body.url = some "" →
      handleScreenshot ext env kv0 body = (errResp 400 ("URL is required"), {}, kv0)) := by
  refine ⟨?_, ?_, ?_⟩
  · intro h
    unfold handleScreenshot
    rw [h]
  · intro u h hu hp
    unfold handleScreenshot
    rw [h]
    simp [hu, hp]
  · intro h
    unfold handleScreenshot
    rw [h]
    simp

/-- Witness for C3: the missing-url rejection at a concrete request. -/
theorem screenshot_invalid_url_rejected_without_launch_witness :
    handleScreenshot extOK envOK [] { url := none } = (errResp 400 ("URL is required"), {}, []) :=
  (screenshot_invalid_url_rejected_without_launch extOK envOK [] { url := none }).1 rfl

/-- Claim C4: retrieval returns a success only when both records are
retrievable; a missing metadata record yields the plain-text 404 Image
not found, and a present metadata record with a missing payload record
yields the plain-text 404 Image data not found. -/
theorem image_get_no_partial_result (kv : KV) (id : String) (now : Nat) :
    (kvGet kv (id ++ ":meta") now = none →
      handleImage kv id now =
        { status := 404, contentType := "text/plain",
          body := Body.textBody ("Image not found") }) ∧
    (∀ m, kvGet kv (id ++ ":meta") now = some (KVVal.meta m) →
      kvGet kv (id ++ ":data") now = none →
      handleImage kv id now =
        { status := 404, contentType := "text/plain",
          body := Body.textBody ("Image data not found") }) ∧
    ((handleImage kv id now).status = 200 →
      (kvGet kv (id ++ ":meta") now).isSome ∧ (kvGet kv (id ++ ":data") now).isSome) := by
  refine ⟨?_, ?_, ?_⟩
  · intro h
    unfold handleImage
    rw [h]
  · intro m hm hd
    unfold handleImage
    rw [hm, hd]
  · intro h
    unfold handleImage at h
    rcases hm : kvGet kv (id ++ ":meta") now with _ | mv
    · rw [hm] at h
      simp at h
    · rcases mv with m | s
      · rcases hd : kvGet kv (id ++ ":data") now with _ | dv
        · rw [hm, hd] at h
          simp at h
        · simp [hm, hd]
      · rw [hm] at h
        simp at h

/-- Witness for C4: a never-written identifier yields the 404 Image not
found text. -/
theorem image_get_no_partial_result_witness :
    handleImage [] ("zz") 0 =
      { status := 404, contentType := "text/plain", body := Body.textBody ("Image not found") } :=
  (image_get_no_partial_result [] ("zz") 0).1 rfl

/-- Claim C2: on every capture request that reaches a successful capture,
both cache records (metadata and payload) are in the store when the
locator is returned, and dereferencing the returned identifier through the
artifact server at any time before expiry yields the stored payload
decoded to bytes with the stored content type. -/
theorem screenshot_locator_dereferences_before_expiry
    (ext : Oracle) (env : EnvCfg) (kv0 : KV) (body : ScreenshotBody) (u s : String)
    (bs : List Nat) (t : Nat)
    (hurl : body.url = some u) (hu : u ≠ "")
    (hp : ext.urlParses u = true) (hb : env.browser = true) (hk : env.SCREENSHOTS = true)
    (hl : ext.launch = Except.ok ()) (hnp : ext.newPage = Except.ok ())
    (hv : ext.setViewport = Except.ok ()) (hi : ext.setInterception = Except.ok ())
    (hg : ext.goto = Except.ok ()) (hs : ext.screenshot = Except.ok s)
    (hm : ext.putMeta = Except.ok ()) (hd : ext.putData = Except.ok ())
    (hc : ext.close = Except.ok ())
    (hsne : s ≠ "") (hdec : atob s = some bs)
    (ht : t < ext.now + SCREENSHOT_EXPIRATION) :
    (handleScreenshot ext env kv0 body).1.body =
      Body.okJson (ext.origin ++ "/image/" ++ ext.freshId)
        (successMeta ext body u).width (successMeta ext body u).height ("jpeg")
        (successMeta ext body u).fullPage (toString SCREENSHOT_EXPIRATION ++ " seconds")
        ext.freshId ∧
    kvGet (handleScreenshot ext env kv0 body).2.2 (ext.freshId ++ ":meta") t =
      some (KVVal.meta (successMeta ext body u)) ∧
    kvGet (handleScreenshot ext env kv0 body).2.2 (ext.freshId ++ ":data") t =
      some (KVVal.data s) ∧
    handleImage (handleScreenshot ext env kv0 body).2.2 ext.freshId t =
      { status := 200, contentType := (successMeta ext body u).contentType,
        cacheControl := some ("public, max-age=3600"), body := Body.bytes bs } := by
  rw [handleScreenshot_success ext env kv0 body u s hurl hu hp hb hk hl hnp hv hi hg hs hm hd hc]
  have hneq : ext.freshId ++ ":data" ≠ ext.freshId ++ ":meta" :=
    append_tail_ne _ _ _ (by decide)
  refine ⟨?_, ?_, ?_, ?_⟩
  · simp [successResp, successMeta]
  · rw [kvGet_put_other _ _ _ _ _ _ _ hneq, kvGet_put_same _ _ _ _ _ _ ht]
  · exact kvGet_put_same _ _ _ _ _ _ ht
  · unfold handleImage
    rw [kvGet_put_other _ _ _ _ _ _ _ hneq, kvGet_put_same _ _ _ _ _ _ ht,
        kvGet_put_same _ _ _ _ _ _ ht]
    simp [hsne, hdec, successMeta]

/-- Witness for C2: the concrete fixture run, dereferenced halfway through
the TTL window. -/
theorem screenshot_locator_dereferences_before_expiry_witness :
    handleImage (handleScreenshot extOK envOK [] bodySimple).2.2 ("abc123") 1800 =
      { status := 200, contentType := ("image/jpeg"),
        cacheControl := some ("public, max-age=3600"), body := Body.bytes [65, 66, 67] } :=
  (screenshot_locator_dereferences_before_expiry extOK envOK [] bodySimple
    ("https://example.com") ("QUJD") [65, 66, 67] 1800 rfl (by decide) rfl rfl rfl rfl rfl rfl
    rfl rfl rfl rfl rfl rfl (by decide) (by decide) (by decide)).2.2.2

/-- Claim C5: on every successful capture the viewport width is clamped to
at most 1600 and the height to at most 1200, and the clamped values are
the ones set on the page, recorded in the stored artifact metadata and
carried in the success response. -/
theorem screenshot_viewport_clamped
    (ext : Oracle) (env : EnvCfg) (kv0 : KV) (body : ScreenshotBody) (u s : String)
    (hurl : body.url = some u) (hu : u ≠ "")
    (hp : ext.urlParses u = true) (hb : env.browser = true) (hk : env.SCREENSHOTS = true)
    (hl : ext.launch = Except.ok ()) (hnp : ext.newPage = Except.ok ())
    (hv : ext.setViewport = Except.ok ()) (hi : ext.setInterception = Except.ok ())
    (hg : ext.goto = Except.ok ()) (hs : ext.screenshot = Except.ok s)
    (hm : ext.putMeta = Except.ok ()) (hd : ext.putData = Except.ok ())
    (hc : ext.close = Except.ok ()) :
    (successMeta ext body u).width = min (jsOrNat body.width 1280) 1600 ∧
    (successMeta ext body u).height = min (jsOrNat body.height 800) 1200 ∧
    (successMeta ext body u).width ≤ 1600 ∧
    (successMeta ext body u).height ≤ 1200 ∧
    (handleScreenshot ext env kv0 body).2.1.viewportSet =
      some ((successMeta ext body u).width, (successMeta ext body u).height) ∧
    kvGet (handleScreenshot ext env kv0 body).2.2 (ext.freshId ++ ":meta") ext.now =
      some (KVVal.meta (successMeta ext body u)) ∧
    (handleScreenshot ext env kv0 body).1.body =
      Body.okJson (ext.origin ++ "/image/" ++ ext.freshId)
        (successMeta ext body u).width (successMeta ext body u).height ("jpeg")
        (successMeta ext body u).fullPage (toString SCREENSHOT_EXPIRATION ++ " seconds")
        ext.freshId := by
  rw [handleScreenshot_success ext env kv0 body u s hurl hu hp hb hk hl hnp hv hi hg hs hm hd hc]
  have hneq : ext.freshId ++ ":data" ≠ ext.freshId ++ ":meta" :=
    append_tail_ne _ _ _ (by decide)
  have ht : ext.now < ext.now + SCREENSHOT_EXPIRATION := by
    simp [SCREENSHOT_EXPIRATION]
  refine ⟨rfl, rfl, Nat.min_le_right _ _, Nat.min_le_right _ _, ?_, ?_, ?_⟩
  · simp [successTrace, successMeta]
  · rw [kvGet_put_other _ _ _ _ _ _ _ hneq, kvGet_put_same _ _ _ _ _ _ ht]
  · simp [successResp, successMeta]

/-- Witness for C5: the 2000 by 2000 request of the spec scenario yields
1600 by 1200 in the viewport and the stored metadata, not 2000 by 2000. -/
theorem screenshot_viewport_clamped_witness :
    (successMeta extOK bodyOversized ("https://example.com")).width = 1600 ∧
    (successMeta extOK bodyOversized ("https://example.com")).height = 1200 ∧
    (handleScreenshot extOK envOK [] bodyOversized).2.1.viewportSet = some (1600, 1200) :=
  let h := screenshot_viewport_clamped extOK envOK [] bodyOversized ("https://example.com")
    ("QUJD") rfl (by decide) rfl rfl rfl rfl rfl rfl rfl rfl rfl rfl rfl rfl
  ⟨h.1, h.2.1, h.2.2.2.2.1⟩

/-- Claim C10: a width (height) field that is omitted or supplied as zero
is falsy in JavaScript and falls back to the default 1280 (800), which is
what the viewport and the stored metadata record; the 1600 (1200) clamp
applies to the supplied value only when it is nonzero. -/
theorem screenshot_viewport_defaults_when_omitted_or_zero
    (ext : Oracle) (env : EnvCfg) (kv0 : KV) (body : ScreenshotBody) (u s : String)
    (hurl : body.url = some u) (hu : u ≠ "")
    (hp : ext.urlParses u = true) (hb : env.browser = true) (hk : env.SCREENSHOTS = true)
    (hl : ext.launch = Except.ok ()) (hnp : ext.newPage = Except.ok ())
    (hv : ext.setViewport = Except.ok ()) (hi : ext.setInterception = Except.ok ())
    (hg : ext.goto = Except.ok ()) (hs : ext.screenshot = Except.ok s)
    (hm : ext.putMeta = Except.ok ()) (hd : ext.putData = Except.ok ())
    (hc : ext.close = Except.ok ()) :
    ((body.width = none ∨ body.width = some 0) → (successMeta ext body u).width = 1280) ∧
    (∀ n, body.width = some n → n ≠ 0 → (successMeta ext body u).width = min n 1600) ∧
    ((body.height = none ∨ body.height = some 0) → (successMeta ext body u).height = 800) ∧
    (∀ n, body.height = some n → n ≠ 0 → (successMeta ext body u).height = min n 1200) ∧
    (handleScreenshot ext env kv0 body).2.1.viewportSet =
      some ((successMeta ext body u).width, (successMeta ext body u).height) ∧
    kvGet (handleScreenshot ext env kv0 body).2.2 (ext.freshId ++ ":meta") ext.now =
      some (KVVal.meta (successMeta ext body u)) := by
  rw [handleScreenshot_success ext env kv0 body u s hurl hu hp hb hk hl hnp hv hi hg hs hm hd hc]
  have hneq : ext.freshId ++ ":data" ≠ ext.freshId ++ ":meta" :=
    append_tail_ne _ _ _ (by decide)
  have ht : ext.now < ext.now + SCREENSHOT_EXPIRATION := by
    simp [SCREENSHOT_EXPIRATION]
  refine ⟨?_, ?_, ?_, ?_, ?_, ?_⟩
  · rintro (h | h) <;> simp [successMeta, jsOrNat, h]
  · intro n h hn
    simp [successMeta, jsOrNat, h, hn]
  · rintro (h | h) <;> simp [successMeta, jsOrNat, h]
  · intro n h hn
    simp [successMeta, jsOrNat, h, hn]
  · simp [successTrace, successMeta]
  · rw [kvGet_put_other _ _ _ _ _ _ _ hneq, kvGet_put_same _ _ _ _ _ _ ht]

/-- Witness for C10: omitted width and zero height give the 1280 by 800
defaults. -/
theorem screenshot_viewport_defaults_when_omitted_or_zero_witness :
    (successMeta extOK bodyDefaults ("https://example.com")).width = 1280 ∧
    (successMeta extOK bodyDefaults ("https://example.com")).height = 800 ∧
    (handleScreenshot extOK envOK [] bodyDefaults).2.1.viewportSet = some (1280, 800) :=
  let h := screenshot_viewport_defaults_when_omitted_or_zero extOK envOK [] bodyDefaults
    ("https://example.com") ("QUJD") rfl (by decide) rfl rfl rfl rfl rfl rfl rfl rfl rfl rfl rfl rfl
  ⟨h.1 (Or.inl rfl), h.2.2.1 (Or.inr rfl), h.2.2.2.2.1⟩

theorem closeAndCatch_shots (ext : Oracle) (e : String) (t : Trace) (kv : KV) :
    (closeAndCatch ext e t kv).2.1.shots = t.shots := by
  unfold closeAndCatch
  cases ext.close <;> rfl

theorem closeAndReturn_shots (ext : Oracle) (resp : Response) (t : Trace) (kv : KV) :
    (closeAndReturn ext resp t kv).2.1.shots = t.shots := by
  unfold closeAndReturn
  cases ext.close <;> rfl

/-- Claim C6 as stated is false at this input: the request sets the
full-page flag (and no force flag), yet the single capture performed is a
full-viewport one, because line 279 caps fullPage to false unless
forceFullPage is also set. -/
theorem screenshot_fullpage_flag_alone_not_honored :
    bodyFullPage.fullPage = some true ∧ bodyFullPage.forceFullPage = none ∧
    (handleScreenshot extOK envOK [] bodyFullPage).2.1.shots =
      [{ fullPage := false, format := "jpeg", quality := 80, encoding := "base64" }] := by
  refine ⟨rfl, rfl, ?_⟩
  decide

/-- Claim C6 (amended): every capture request that reaches Capturing makes
exactly one screenshot call, in JPEG at quality 80 (base64-encoded), and
the capture is full-scrollable-page exactly when the request sets both the
full-page flag and the force-full-page flag; it is a full-viewport capture
otherwise. This holds whether or not the subsequent cache writes and the
close succeed. -/
theorem screenshot_single_jpeg80_capture
    (ext : Oracle) (env : EnvCfg) (kv0 : KV) (body : ScreenshotBody) (u s : String)
    (hurl : body.url = some u) (hu : u ≠ "")
    (hp : ext.urlParses u = true) (hb : env.browser = true) (hk : env.SCREENSHOTS = true)
    (hl : ext.launch = Except.ok ()) (hnp : ext.newPage = Except.ok ())
    (hv : ext.setViewport = Except.ok ()) (hi : ext.setInterception = Except.ok ())
    (hg : ext.goto = Except.ok ()) (hs : ext.screenshot = Except.ok s) :
    (handleScreenshot ext env kv0 body).2.1.shots =
      [{ fullPage := truthyB body.fullPage && truthyB body.forceFullPage,
         format := "jpeg", quality := 80, encoding := "base64" }] := by
  unfold handleScreenshot
  rw [hurl]
  simp only [hu, hp, hb, hk, hl, hnp, hv, hi, hg, hs, Bool.not_true, Bool.not_false,
    if_neg, if_pos, ite_false, ite_true]
  repeat' split
  all_goals simp_all [closeAndCatch_shots, closeAndReturn_shots, fullPageUsed_eq]

/-- Witness for the amended C6: with both flags set the single capture is
full-scrollable-page, JPEG at quality 80. -/
theorem screenshot_single_jpeg80_capture_witness :
    (handleScreenshot extOK envOK [] bodyForceFull).2.1.shots =
      [{ fullPage := true, format := "jpeg", quality := 80, encoding := "base64" }] :=
  screenshot_single_jpeg80_capture extOK envOK [] bodyForceFull ("https://example.com")
    ("QUJD") rfl (by decide) rfl rfl rfl rfl rfl rfl rfl rfl rfl

/-- Claim C7: the screenshot navigation filter, with no caller opt-in to
resources, aborts exactly the sub-requests whose resource type is image,
font or media and lets every other type through; with the opt-in set it
aborts nothing. -/
theorem resource_filter_default_rejects_image_font_media
    (inc : Option Bool) (rt : String) :
    (truthyB inc = false →
      (screenshotAbort inc rt = true ↔ (rt = "image" ∨ rt = "font" ∨ rt = "media"))) ∧
    (truthyB inc = true → screenshotAbort inc rt = false) := by
  constructor
  · intro h
    unfold screenshotAbort
    rw [h]
    simp only [List.contains, List.elem, Bool.not_false, Bool.and_true]
    cases h1 : rt == "image" <;> cases h2 : rt == "font" <;> cases h3 : rt == "media" <;>
      simp_all
  · intro h
    unfold screenshotAbort
    rw [h]
    simp

/-- Witness for C7: an image sub-request is aborted and a document
sub-request continues by default; with the opt-in nothing is aborted. -/
theorem resource_filter_default_rejects_image_font_media_witness :
    screenshotAbort none ("image") = true ∧ screenshotAbort none ("document") = false ∧
    screenshotAbort (some true) ("image") = false := by
  refine ⟨?_, ?_, ?_⟩
  · exact ((resource_filter_default_rejects_image_font_media none ("image")).1 rfl).mpr
      (Or.inl rfl)
  · have h := (resource_filter_default_rejects_image_font_media none ("document")).1 rfl
    have hno : ¬ (("document" = "image") ∨ ("document" = "font") ∨ ("document" = "media")) := by
      decide
    cases hab : screenshotAbort none ("document")
    · rfl
    · exact absurd (h.mp hab) hno
  · exact (resource_filter_default_rejects_image_font_media (some true) ("image")).2 rfl

/-- Claim C8 is the intent of the source (its timer throws a Browser
launch timed out error), but the mechanism is broken: the throw happens
inside the setTimeout callback, outside the handler try/catch, so it
cannot fail the request. At this input the launch resolves only after 20
seconds, past the 15-second deadline, yet the handler proceeds: a page is
created and the request returns a 200 success, with the timer error left
uncaught, instead of a Failed session with a launch-timeout cause and no
page. -/
theorem launch_timeout_not_enforced :
    (handleScreenshot extSlowLaunch envOK [] bodySimple).2.1.timerThrew = true ∧
    (handleScreenshot extSlowLaunch envOK [] bodySimple).2.1.pageCreated = true ∧
    (handleScreenshot extSlowLaunch envOK [] bodySimple).1.status = 200 := by
  decide

/-- Claim C9 as stated is false at this input: halfway through the
artifact lifetime (1800 of the 3600 seconds remaining) the Cache-Control
of a successful retrieval still allows 3600 seconds of caching, a fixed
duration, not the remaining lifetime. -/
theorem image_cache_control_not_remaining_lifetime :
    (handleImage kvFix ("a") 1800).cacheControl = some ("public, max-age=3600") ∧
    some ("public, max-age=3600") ≠ some ("public, max-age=" ++ toString (3600 - 1800)) := by
  decide

/-- Claim C9 (amended): every successful retrieval carries the payload
decoded from its base64 encoding to bytes, the stored content type, and
the fixed Cache-Control public, max-age=3600 — the full TTL — regardless
of the artifact remaining lifetime. -/
theorem image_success_fixed_cache_control (kv : KV) (id : String) (now : Nat)
    (m : Metadata) (s : String) (bs : List Nat)
    (hm : kvGet kv (id ++ ":meta") now = some (KVVal.meta m))
    (hd : kvGet kv (id ++ ":data") now = some (KVVal.data s))
    (hne : s ≠ "") (hdec : atob s = some bs) :
    handleImage kv id now =
      { status := 200, contentType := m.contentType,
        cacheControl := some ("public, max-age=3600"), body := Body.bytes bs } := by
  unfold handleImage
  rw [hm, hd]
  simp [hne, hdec]

/-- Witness for the amended C9 at the fixture cache. -/
theorem image_success_fixed_cache_control_witness :
    handleImage kvFix ("a") 1800 =
      { status := 200, contentType := ("image/jpeg"),
        cacheControl := some ("public, max-age=3600"), body := Body.bytes [65, 66, 67] } :=
  image_success_fixed_cache_control kvFix ("a") 1800 mdFix ("QUJD") [65, 66, 67]
    (by decide) (by decide) (by decide) (by decide)
